import Mathlib

/-!
Shallow embedding of the Nexus `ApiServiceConnector` core
(src/src/ApiServiceConnector.ts): protocol detection, the
process-wide connector registry, and the three request execution
strategies (REST, GraphQL, Generic).

Modelling conventions:
- JavaScript objects carrying request/response payloads are modelled by
  the inductive `JSValue`.
- A headers object is an association list with unique keys; writing a
  key replaces its previous binding, matching JS property assignment.
- Mutable state (the default-headers object of each axios instance) is
  threaded explicitly as a `World` mapping instance ids to headers;
  the process-wide registry is threaded as a `RegistryState`.
- The external transports (axios, Apollo) are oracles: functions from
  the arguments the code hands them (including the headers the axios
  instance holds at call time) to an outcome, passed in as parameters.
- A JS `throw` is an `Except.error` carrying the error message string;
  on the throwing path the state returned is the state at the throw.
-/

set_option autoImplicit false

namespace Nexus

/-- A JavaScript value (payload data: request bodies, params, response
data, opaque client values). -/
inductive JSValue where
  | null : JSValue
  | bool (b : Bool) : JSValue
  | num (n : Int) : JSValue
  | str (s : String) : JSValue
  | obj (fields : List (String × JSValue)) : JSValue

/-- A JS headers object: association list from header name to value. -/
abbrev Headers := List (String × String)

/-- Write one property of a headers object: replace the binding if the
key is present, append it otherwise (JS property assignment). -/
def setHeader : Headers → String → String → Headers
  | [], k, v => [(k, v)]
  | (k', v') :: rest, k, v =>
    if k' = k then (k, v) :: rest else (k', v') :: setHeader rest k v

/-- The `Object.assign(target, source)`: write every property of `source`
into `target`, left to right. -/
def objectAssign (target source : Headers) : Headers :=
  source.foldl (fun acc p => setHeader acc p.1 p.2) target

/-- The `ClientProtocol` from ApiServiceConnectorTypes.ts. -/
inductive ClientProtocol where
  | REST : ClientProtocol
  | GraphQL : ClientProtocol
  | Generic : ClientProtocol
deriving Repr, DecidableEq

/-- The string a `ClientProtocol` value interpolates to. -/
def ClientProtocol.name : ClientProtocol → String
  | .REST => "REST"
  | .GraphQL => "GraphQL"
  | .Generic => "Generic"

/-- An axios instance, identified by the id of its mutable
default-headers cell in the `World`. -/
structure AxiosInstance where
  instId : Nat
deriving Repr, DecidableEq

/-- A parsed GraphQL document (`DocumentNode`), identified by its AST
rendering. -/
structure DocumentNode where
  ast : String
deriving Repr, DecidableEq

/-- An Apollo client object, identified by an id; its query behaviour
is supplied externally as an oracle. -/
structure ApolloClient where
  clientId : Nat
deriving Repr, DecidableEq

/-- An axios success response: the shared response envelope
`data/status/statusText/headers/config`. -/
structure AxiosResponse where
  data : JSValue
  status : Int
  statusText : String
  headers : Headers
  config : JSValue

/-- A JS error value as the catch blocks inspect it: the
`isAxiosError` flag, the optional attached `response`, the optional
`message` property, and the string rendering used when the template
literal falls back to stringifying the whole error. -/
structure JSError where
  isAxiosError : Bool
  response : Option AxiosResponse
  message : Option String
  asString : String

/-- The `error.message || error`: the `message` property when present and
truthy (a non-empty string), otherwise the stringified error. -/
def JSError.orString (e : JSError) : String :=
  match e.message with
  | some m => if m = "" then e.asString else m
  | none => e.asString

/-- Outcome of one call of an executeRequest function supplied with a
Generic adapter: the promise resolves to a value or rejects with an
error. -/
inductive ExecOutcome where
  | resolve (v : JSValue) : ExecOutcome
  | reject (e : JSError) : ExecOutcome

/- ----------------------------------------------------------------
Adapters.  `ApiRequestFormat` is the union RESTAdapter | GraphQLAdapter
| GenericAdapter, but detection probes arbitrary objects for field
presence (the JS `in` operator applied to `axiosInstance` etc.), so an
adapter value is
modelled as an object with each of the four probed fields optionally
present, plus the runtime `constructor.name` used as registry key part.
---------------------------------------------------------------- -/

/-- An adapter object as `createOrRetrieve` receives it: the runtime
constructor name and the four fields the protocol detectors and the
strategies look at, each present or absent. -/
structure AdapterObject where
  constructorName : String
  axiosInstance : Option AxiosInstance
  apolloClient : Option ApolloClient
  client : Option JSValue
  executeRequest : Option (JSValue → ExecOutcome)

/-- The `RESTAdapter` (types/RESTAdapter.ts): holds one axios instance. -/
structure RESTAdapter where
  axiosInstance : AxiosInstance
deriving Repr, DecidableEq

/-- The `GraphQLAdapter` (types/GraphQLAdapter.ts): holds one Apollo
client. -/
structure GraphQLAdapter where
  apolloClient : ApolloClient
deriving Repr, DecidableEq

/-- The `GenericAdapter` (types/GenericAdapter.ts): an opaque client value
plus a caller-supplied executeRequest function. -/
structure GenericAdapter where
  client : JSValue
  executeRequest : JSValue → ExecOutcome

/-- The `PROTOCOL_DETECTORS` (ApiServiceConnector.ts lines 18-25): a record
whose entries, in insertion order, map each protocol to its structural
predicate. -/
def PROTOCOL_DETECTORS : List (ClientProtocol × (AdapterObject → Bool)) :=
  [ (.REST, fun adapter => adapter.axiosInstance.isSome),
    (.GraphQL, fun adapter => adapter.apolloClient.isSome),
    (.Generic, fun adapter =>
      adapter.client.isSome && adapter.executeRequest.isSome) ]

/-- The find over `Object.entries(PROTOCOL_DETECTORS)` in
`createOrRetrieve` (lines 43-45): first entry whose detector accepts
the adapter. -/
def detectProtocol (adapter : AdapterObject) : Option ClientProtocol :=
  (PROTOCOL_DETECTORS.find? (fun entry => entry.2 adapter)).map (·.1)

/-- A connector: the private constructor stores the adapter and its
resolved protocol (lines 35-38).  `connectorId` records the allocation
order, so value equality of connectors models referential identity of
the JS objects. -/
structure Connector where
  connectorId : Nat
  adapterClient : AdapterObject
  protocolType : ClientProtocol

/-- The process-wide static state: `connectorRegistry` (a map from
registry key to connector) together with the allocation counter that
makes connector identities. -/
structure RegistryState where
  registry : List (String × Connector)
  nextId : Nat

/-- The empty initial registry state. -/
def RegistryState.initial : RegistryState := ⟨[], 0⟩

/-- The message thrown when no protocol detector matches (lines 48-50). -/
def unrecognizedAdapterMsg : String :=
  "Tipo de adaptador não reconhecido. Nenhum detector de protocolo correspondente."

/-- The registry key: adapter constructor name, a colon, the protocol
name (line 53). -/
def registryKeyOf (adapter : AdapterObject) (protocol : ClientProtocol) : String :=
  adapter.constructorName ++ ":" ++ protocol.name

/-- The `ApiServiceConnector.createOrRetrieve` (lines 40-65): detect the
protocol (throwing when no detector matches), compute the registry
key, construct and store a connector when the key is absent, and
return the connector stored under the key. -/
def createOrRetrieve (adapter : AdapterObject) (s : RegistryState) :
    Except String Connector × RegistryState :=
  match detectProtocol adapter with
  | none => (.error unrecognizedAdapterMsg, s)
  | some protocol =>
    let registryKey := registryKeyOf adapter protocol
    match s.registry.lookup registryKey with
    | some connector => (.ok connector, s)
    | none =>
      let connector : Connector := ⟨s.nextId, adapter, protocol⟩
      (.ok connector,
       ⟨(registryKey, connector) :: s.registry, s.nextId + 1⟩)

/- ----------------------------------------------------------------
Mutable transport state and the connector operations.
---------------------------------------------------------------- -/

/-- The mutable state owned by the external transports: for each axios
instance id, the current contents of its `defaults.headers` object. -/
abbrev World := List (Nat × Headers)

/-- Read `axiosInstance.defaults.headers` for the instance `i`. -/
def getDefaults (w : World) (i : Nat) : Headers :=
  (w.lookup i).getD []

/-- Overwrite `axiosInstance.defaults.headers` for the instance `i`. -/
def setDefaults : World → Nat → Headers → World
  | [], i, h => [(i, h)]
  | (j, h') :: rest, i, h =>
    if j = i then (i, h) :: rest else (j, h') :: setDefaults rest i h

/-- The message thrown by `applyAuthenticationToken` on a non-REST
connector (lines 69-71). -/
def authOnlyRestMsg : String :=
  "Autenticação via token disponível apenas para clientes REST"

/-- The message thrown by `getGraphQLClient` on a non-GraphQL connector
(line 81). -/
def noGraphQLClientMsg : String :=
  "Cliente GraphQL não disponível neste conector"

/-- The `applyAuthenticationToken` (lines 67-77): throw unless the
connector is REST, otherwise set the `authorization` default header of
the axios instance held by the adapter to `Bearer <token>`.  The
(thrown-error, world) pair models the effect of the method; on a throw
the world is the
one at the throw. -/
def applyAuthenticationToken (c : Connector) (accessToken : String)
    (w : World) : Except String Unit × World :=
  if c.protocolType ≠ .REST then
    (.error authOnlyRestMsg, w)
  else
    match c.adapterClient.axiosInstance with
    | some inst =>
      (.ok (),
       setDefaults w inst.instId
         (setHeader (getDefaults w inst.instId) "authorization"
           ("Bearer " ++ accessToken)))
    | none =>
      -- the unchecked cast `this.adapterClient as RESTAdapter` reads
      -- `.axiosInstance` of an object without the field: a TypeError
      (.error "TypeError", w)

/-- The `getGraphQLClient` (lines 79-85): throw unless the connector is
GraphQL, otherwise return the Apollo client held by the adapter. -/
def getGraphQLClient (c : Connector) : Except String ApolloClient :=
  if c.protocolType ≠ .GraphQL then
    .error noGraphQLClientMsg
  else
    match c.adapterClient.apolloClient with
    | some client => .ok client
    | none => .error "TypeError"

/- ----------------------------------------------------------------
REST execution strategy.
---------------------------------------------------------------- -/

/-- The HTTP methods `HttpRequestConfig` admits. -/
inductive HttpMethod where
  | GET | POST | PATCH | PUT | DELETE
deriving Repr, DecidableEq

/-- The `HttpRequestConfig` (ApiServiceConnectorTypes.ts): url, method,
optional data, params and per-call headers. -/
structure HttpRequestConfig where
  url : String
  method : HttpMethod
  data : Option JSValue
  params : Option JSValue
  headers : Option Headers

/-- The object `executeHttpRequest` hands to `axiosInstance.request`:
just url, method, data and params (line 141-146). -/
structure HttpCoreRequest where
  url : String
  method : HttpMethod
  data : Option JSValue
  params : Option JSValue

/-- Project an `HttpRequestConfig` onto the fields passed to the
transport. -/
def HttpRequestConfig.core (cfg : HttpRequestConfig) : HttpCoreRequest :=
  ⟨cfg.url, cfg.method, cfg.data, cfg.params⟩

/-- Outcome of one axios transport call: the promise fulfills with a
response or rejects with an error value. -/
inductive AxiosOutcome where
  | fulfill (response : AxiosResponse) : AxiosOutcome
  | reject (e : JSError) : AxiosOutcome

/-- The behaviour of one axios instance as the code observes it: the
outcome may depend on the request passed in and on the default
headers the instance holds at call time. -/
abbrev AxiosBehavior := HttpCoreRequest → Headers → AxiosOutcome

/-- The wrapped message thrown by the REST strategy for an error
without a usable attached response (line 153). -/
def httpFailureMsg (e : JSError) : String :=
  "Falha na requisição HTTP: " ++ e.orString

/-- The `executeHttpRequest` (lines 129-157): snapshot the default headers
of the instance, merge per-call headers into them when given, issue
the request (the transport observes the defaults the instance holds
at call time), turn an axios error carrying a response into a success, wrap
any other error, and in all cases restore the snapshot before
settling. -/
def executeHttpRequest (behavior : AxiosBehavior) (adapter : RESTAdapter)
    (cfg : HttpRequestConfig) (w : World) :
    Except String AxiosResponse × World :=
  let i := adapter.axiosInstance.instId
  let originalHeaders := getDefaults w i
  let w1 := match cfg.headers with
    | some h => setDefaults w i (objectAssign (getDefaults w i) h)
    | none => w
  let result : Except String AxiosResponse :=
    match behavior cfg.core (getDefaults w1 i) with
    | .fulfill response => .ok response
    | .reject error =>
      match error.isAxiosError, error.response with
      | true, some response => .ok response
      | true, none => .error (httpFailureMsg error)
      | false, _ => .error (httpFailureMsg error)
  (result, setDefaults w1 i originalHeaders)

/-- The default headers of the axios instance of the adapter as the
transport observes them during `executeHttpRequest`: the pre-call
defaults with the per-call headers (when given) merged in. -/
def overlaidDefaults (adapter : RESTAdapter) (cfg : HttpRequestConfig)
    (w : World) : Headers :=
  match cfg.headers with
  | some h => objectAssign (getDefaults w adapter.axiosInstance.instId) h
  | none => getDefaults w adapter.axiosInstance.instId

/- ----------------------------------------------------------------
GraphQL execution strategy.
---------------------------------------------------------------- -/

/-- The query field of a `GraphQLOperationConfig`: a precompiled
document or a raw string. -/
inductive QueryInput where
  | doc (d : DocumentNode) : QueryInput
  | str (s : String) : QueryInput

/-- The `GraphQLOperationConfig` (ApiServiceConnectorTypes.ts): query,
optional variables and headers. -/
structure GraphQLOperationConfig where
  query : QueryInput
  /-- the `variables` field (renamed: `variables` is reserved). -/
  vars : Option JSValue
  headers : Option Headers

/-- The `context` object built for Apollo when per-call headers are
given (line 175). -/
structure GqlContext where
  headers : Headers
deriving Repr, DecidableEq

/-- The argument object of `apolloClient.query` (lines 172-176). -/
structure ApolloQueryArgs where
  query : DocumentNode
  /-- the `variables` field (renamed: `variables` is reserved). -/
  vars : Option JSValue
  context : Option GqlContext

/-- Outcome of one `apolloClient.query` call: fulfills with a result
whose `data` field the code destructures, or rejects. -/
inductive ApolloOutcome where
  | fulfill (data : JSValue) : ApolloOutcome
  | reject (e : JSError) : ApolloOutcome

/-- The external GraphQL machinery: the imported `gql` template tag
(parsing raw query text) and the query method of each Apollo client. -/
structure GqlEnv where
  gqlParse : String → DocumentNode
  clientQuery : ApolloClient → ApolloQueryArgs → ApolloOutcome

/-- The string the template literal in lines 166-168 builds around a
raw query before handing it to `gql`. -/
def gqlTemplate (query : String) : String :=
  "\n            " ++ query ++ "\n          "

/-- The wrapped message thrown by the GraphQL strategy (line 186). -/
def graphQLFailureMsg (e : JSError) : String :=
  "Falha na operação GraphQL: " ++ e.orString

/-- The `gqlOperation` of lines 164-169: a raw string is wrapped in
the template literal and parsed by `gql`, a precompiled document is
used as is. -/
def gqlOperationOf (env : GqlEnv) (cfg : GraphQLOperationConfig) :
    DocumentNode :=
  match cfg.query with
  | .str s => env.gqlParse (gqlTemplate s)
  | .doc d => d

/-- The argument object handed to `apolloClient.query` (lines
172-176): the normalized document, the variables, and a headers
context only when per-call headers were given. -/
def apolloArgsOf (env : GqlEnv) (cfg : GraphQLOperationConfig) :
    ApolloQueryArgs :=
  ⟨gqlOperationOf env cfg, cfg.vars, cfg.headers.map (fun h => ⟨h⟩)⟩

/-- The `executeGraphQLOperation` (lines 159-188): parse a raw query
string with `gql` (a precompiled document is used as is), run the
Apollo query with variables and an optional headers context, wrap a
successful `data` into the envelope with status 200, statusText OK,
empty headers and config, and wrap any rejection into one thrown
error. -/
def executeGraphQLOperation (env : GqlEnv) (adapter : GraphQLAdapter)
    (cfg : GraphQLOperationConfig) : Except String AxiosResponse :=
  match env.clientQuery adapter.apolloClient (apolloArgsOf env cfg) with
  | .fulfill d => .ok ⟨d, 200, "OK", [], .obj []⟩
  | .reject error => .error (graphQLFailureMsg error)

/- ----------------------------------------------------------------
Generic execution strategy and the request dispatcher.
---------------------------------------------------------------- -/

/-- The wrapped message thrown by the Generic strategy (line 199). -/
def genericFailureMsg (e : JSError) : String :=
  "Falha na operação genérica: " ++ e.orString

/-- The `executeGenericOperation` (lines 190-201): call the caller-supplied
executeRequest held by the adapter on the config, return its resolved
value verbatim, wrap any rejection into one thrown error. -/
def executeGenericOperation (adapter : GenericAdapter) (config : JSValue) :
    Except String JSValue :=
  match adapter.executeRequest config with
  | .resolve v => .ok v
  | .reject error => .error (genericFailureMsg error)

/-- The `ApiRequestConfig`: the union of the three per-protocol config
shapes. -/
inductive ApiRequestConfig where
  | http (cfg : HttpRequestConfig) : ApiRequestConfig
  | graphql (cfg : GraphQLOperationConfig) : ApiRequestConfig
  | generic (cfg : JSValue) : ApiRequestConfig

/-- What `request` settles with: the shared envelope on the REST and
GraphQL paths, the verbatim executor value on the Generic path. -/
inductive RequestResult where
  | envelope (r : AxiosResponse) : RequestResult
  | plain (v : JSValue) : RequestResult

/-- All external behaviour `request` can reach: the behaviour of each
axios instance keyed by instance id, plus the GraphQL machinery. -/
structure Env where
  axios : Nat → AxiosBehavior
  gql : GqlEnv

/-- The `request` (lines 102-127): branch on the protocol of the connector and
delegate to the matching strategy with the adapter viewed through the
corresponding cast.  The unchecked `as` casts of the source are
modelled by requiring the adapter field and the config shape the
branch assumes; an out-of-contract combination (which in JS would read
undefined fields) is a TypeError.  The trailing unsupported-protocol
throw of line 126 is unreachable here because `ClientProtocol` has
exactly the three known values. -/
def request (env : Env) (c : Connector) (config : ApiRequestConfig)
    (w : World) : Except String RequestResult × World :=
  match c.protocolType with
  | .REST =>
    match c.adapterClient.axiosInstance, config with
    | some inst, .http cfg =>
      let (r, w2) := executeHttpRequest (env.axios inst.instId) ⟨inst⟩ cfg w
      (r.map .envelope, w2)
    | _, _ => (.error "TypeError", w)
  | .GraphQL =>
    match c.adapterClient.apolloClient, config with
    | some client, .graphql cfg =>
      ((executeGraphQLOperation env.gql ⟨client⟩ cfg).map .envelope, w)
    | _, _ => (.error "TypeError", w)
  | .Generic =>
    match c.adapterClient.client, c.adapterClient.executeRequest, config with
    | some client, some exec, .generic cfg =>
      ((executeGenericOperation ⟨client, exec⟩ cfg).map .plain, w)
    | _, _, _ => (.error "TypeError", w)

/- ----------------------------------------------------------------
Helper lemmas.
---------------------------------------------------------------- -/

theorem lookup_cons {A B : Type} [BEq A] [LawfulBEq A] [DecidableEq A]
    (k k' : A) (v : B) (t : List (A × B)) :
    List.lookup k ((k', v) :: t) = if k = k' then some v else List.lookup k t := by
  by_cases h : k = k'
  · subst h; simp [List.lookup]
  · simp only [List.lookup, beq_eq_false_iff_ne.mpr h, if_neg h]

theorem objectAssign_nil (d : Headers) : objectAssign d [] = d := rfl

theorem objectAssign_cons (d : Headers) (k v : String) (t : Headers) :
    objectAssign d ((k, v) :: t) = objectAssign (setHeader d k v) t := rfl

theorem lookup_setHeader_self (h : Headers) (k v : String) :
    (setHeader h k v).lookup k = some v := by
  induction h with
  | nil => simp [setHeader, lookup_cons]
  | cons p t ih =>
    obtain ⟨k', v'⟩ := p
    by_cases hk : k' = k
    · subst hk; simp [setHeader, lookup_cons]
    · simp [setHeader, hk, lookup_cons, Ne.symm hk, ih]

theorem lookup_setHeader_ne (h : Headers) (k k' v : String) (hne : k' ≠ k) :
    (setHeader h k v).lookup k' = h.lookup k' := by
  induction h with
  | nil => simp [setHeader, lookup_cons, hne]
  | cons p t ih =>
    obtain ⟨ka, va⟩ := p
    by_cases hk : ka = k
    · subst hk; simp [setHeader, lookup_cons, hne]
    · simp [setHeader, hk, lookup_cons, ih]

theorem getDefaults_setDefaults_self (w : World) (i : Nat) (h : Headers) :
    getDefaults (setDefaults w i h) i = h := by
  induction w with
  | nil => simp [setDefaults, getDefaults, lookup_cons]
  | cons p t ih =>
    obtain ⟨j, h'⟩ := p
    by_cases hj : j = i
    · subst hj; simp [setDefaults, getDefaults, lookup_cons]
    · simp only [setDefaults, if_neg hj]
      simpa [getDefaults, lookup_cons, Ne.symm hj] using ih

theorem getDefaults_setDefaults_ne (w : World) (i j : Nat) (h : Headers)
    (hne : j ≠ i) :
    getDefaults (setDefaults w i h) j = getDefaults w j := by
  induction w with
  | nil => simp [setDefaults, getDefaults, lookup_cons, hne]
  | cons p t ih =>
    obtain ⟨j', h'⟩ := p
    by_cases hj : j' = i
    · subst hj; simp [setDefaults, getDefaults, lookup_cons, hne]
    · simp only [setDefaults, if_neg hj]
      by_cases hjj : j = j'
      · subst hjj; simp [getDefaults, lookup_cons]
      · simpa [getDefaults, lookup_cons, hjj] using ih

theorem mem_keys_of_lookup_some {t : Headers} {k w : String}
    (h : t.lookup k = some w) : k ∈ t.map Prod.fst := by
  induction t with
  | nil => simp [List.lookup] at h
  | cons p rest ih =>
    obtain ⟨k', v'⟩ := p
    rw [lookup_cons] at h
    by_cases hk : k = k'
    · simp [hk]
    · rw [if_neg hk] at h
      simp [ih h]

theorem lookup_objectAssign_none (d h : Headers) (k : String)
    (hk : h.lookup k = none) :
    (objectAssign d h).lookup k = d.lookup k := by
  induction h generalizing d with
  | nil => rfl
  | cons p t ih =>
    obtain ⟨k', v'⟩ := p
    rw [lookup_cons] at hk
    by_cases hne : k = k'
    · simp [hne] at hk
    · rw [if_neg hne] at hk
      rw [objectAssign_cons, ih (setHeader d k' v') hk,
        lookup_setHeader_ne _ _ _ _ hne]

theorem lookup_objectAssign_some (d h : Headers) (k v : String)
    (hnd : (h.map Prod.fst).Nodup) (hk : h.lookup k = some v) :
    (objectAssign d h).lookup k = some v := by
  induction h generalizing d with
  | nil => simp [List.lookup] at hk
  | cons p t ih =>
    obtain ⟨k', v'⟩ := p
    simp only [List.map_cons, List.nodup_cons] at hnd
    rw [lookup_cons] at hk
    by_cases hke : k = k'
    · rw [if_pos hke] at hk
      injection hk with hv
      subst hv
      subst hke
      have ht : t.lookup k = none := by
        cases hcase : t.lookup k with
        | none => rfl
        | some w => exact absurd (mem_keys_of_lookup_some hcase) hnd.1
      rw [objectAssign_cons, lookup_objectAssign_none _ _ _ ht,
        lookup_setHeader_self]
    · rw [if_neg hke] at hk
      rw [objectAssign_cons]
      exact ih (setHeader d k' v') hnd.2 hk

theorem createOrRetrieve_lookup (a : AdapterObject) (s : RegistryState)
    (p : ClientProtocol) (c : Connector) (s' : RegistryState)
    (hd : detectProtocol a = some p)
    (h : createOrRetrieve a s = (.ok c, s')) :
    s'.registry.lookup (registryKeyOf a p) = some c := by
  cases hlook : List.lookup (registryKeyOf a p) s.registry with
  | some c0 =>
    have heq : createOrRetrieve a s = (.ok c0, s) := by
      unfold createOrRetrieve
      rw [hd]
      simp only [hlook]
    rw [heq] at h
    injection h with h1 h2
    injection h1 with h3
    subst h3
    subst h2
    exact hlook
  | none =>
    have heq : createOrRetrieve a s =
        (.ok ⟨s.nextId, a, p⟩,
         ⟨(registryKeyOf a p, ⟨s.nextId, a, p⟩) :: s.registry, s.nextId + 1⟩) := by
      unfold createOrRetrieve
      rw [hd]
      simp only [hlook]
    rw [heq] at h
    injection h with h1 h2
    injection h1 with h3
    subst h3
    subst h2
    simp [lookup_cons]

/- ----------------------------------------------------------------
Claim theorems.
---------------------------------------------------------------- -/

theorem executeHttpRequest_fst (behavior : AxiosBehavior)
    (adapter : RESTAdapter) (cfg : HttpRequestConfig) (w : World) :
    (executeHttpRequest behavior adapter cfg w).1 =
      match behavior cfg.core (overlaidDefaults adapter cfg w) with
      | .fulfill response => .ok response
      | .reject error =>
        match error.isAxiosError, error.response with
        | true, some response => .ok response
        | true, none => .error (httpFailureMsg error)
        | false, _ => .error (httpFailureMsg error) := by
  unfold executeHttpRequest overlaidDefaults
  cases cfg.headers <;> simp [getDefaults_setDefaults_self]

theorem executeHttpRequest_snd (behavior : AxiosBehavior)
    (adapter : RESTAdapter) (cfg : HttpRequestConfig) (w : World) (j : Nat) :
    getDefaults (executeHttpRequest behavior adapter cfg w).2 j =
      getDefaults w j := by
  have hpair : (executeHttpRequest behavior adapter cfg w).2 =
      setDefaults
        (match cfg.headers with
         | some h => setDefaults w adapter.axiosInstance.instId
             (objectAssign (getDefaults w adapter.axiosInstance.instId) h)
         | none => w)
        adapter.axiosInstance.instId
        (getDefaults w adapter.axiosInstance.instId) := rfl
  rw [hpair]
  by_cases hj : j = adapter.axiosInstance.instId
  · subst hj
    rw [getDefaults_setDefaults_self]
  · rw [getDefaults_setDefaults_ne _ _ _ _ hj]
    cases cfg.headers with
    | none => rfl
    | some h => rw [getDefaults_setDefaults_ne _ _ _ _ hj]

/-- C1: protocol detection yields REST for an adapter with only the
axiosInstance field, GraphQL for one with only the apolloClient field,
Generic for one with only the client and executeRequest fields, and
when no detector predicate matches, createOrRetrieve fails with the
unrecognized-adapter-shape error without constructing a connector (the
registry state is returned unchanged). -/
theorem detection_by_adapter_shape (a : AdapterObject) (s : RegistryState) :
    (a.axiosInstance.isSome = true → a.apolloClient = none →
       a.client = none → a.executeRequest = none →
       detectProtocol a = some .REST)
  ∧ (a.axiosInstance = none → a.apolloClient.isSome = true →
       a.client = none → a.executeRequest = none →
       detectProtocol a = some .GraphQL)
  ∧ (a.axiosInstance = none → a.apolloClient = none →
       a.client.isSome = true → a.executeRequest.isSome = true →
       detectProtocol a = some .Generic)
  ∧ (a.axiosInstance = none → a.apolloClient = none →
       (a.client = none ∨ a.executeRequest = none) →
       createOrRetrieve a s = (.error unrecognizedAdapterMsg, s)) := by
  refine ⟨?_, ?_, ?_, ?_⟩
  · intro h1 _ _ _
    simp [detectProtocol, PROTOCOL_DETECTORS, List.find?, h1]
  · intro h1 h2 _ _
    simp [detectProtocol, PROTOCOL_DETECTORS, List.find?, h1, h2]
  · intro h1 h2 h3 h4
    simp [detectProtocol, PROTOCOL_DETECTORS, List.find?, h1, h2, h3, h4]
  · intro h1 h2 h3
    have hdet : detectProtocol a = none := by
      rcases h3 with h3 | h3 <;>
        simp [detectProtocol, PROTOCOL_DETECTORS, List.find?, h1, h2, h3]
    unfold createOrRetrieve
    rw [hdet]

/-- C1 witness: the four cases of `detection_by_adapter_shape` at
concrete adapters. -/
theorem detection_by_adapter_shape_witness :
    detectProtocol ⟨"RestCfg", some ⟨0⟩, none, none, none⟩ = some .REST
  ∧ detectProtocol ⟨"GqlCfg", none, some ⟨0⟩, none, none⟩ = some .GraphQL
  ∧ detectProtocol
      ⟨"GenCfg", none, none, some .null, some (fun _ => .resolve .null)⟩ =
      some .Generic
  ∧ createOrRetrieve ⟨"Bad", none, none, none, none⟩ .initial =
      (.error unrecognizedAdapterMsg, .initial) :=
  ⟨(detection_by_adapter_shape ⟨"RestCfg", some ⟨0⟩, none, none, none⟩
      .initial).1 rfl rfl rfl rfl,
   (detection_by_adapter_shape ⟨"GqlCfg", none, some ⟨0⟩, none, none⟩
      .initial).2.1 rfl rfl rfl rfl,
   (detection_by_adapter_shape
      ⟨"GenCfg", none, none, some .null, some (fun _ => .resolve .null)⟩
      .initial).2.2.1 rfl rfl rfl rfl,
   (detection_by_adapter_shape ⟨"Bad", none, none, none, none⟩
      .initial).2.2.2 rfl rfl (Or.inl rfl)⟩

/-- C9: when protocol detection fails, createOrRetrieve fails with the
unrecognized-adapter-shape error and the whole registry state
(entries and allocation counter) is exactly the one passed in: the
error path adds and modifies no entry. -/
theorem createOrRetrieve_error_atomicity (a : AdapterObject)
    (s : RegistryState) (hd : detectProtocol a = none) :
    createOrRetrieve a s = (.error unrecognizedAdapterMsg, s) := by
  unfold createOrRetrieve
  rw [hd]

/-- C9 witness: a failing instantiation against a non-empty registry
leaves that registry exactly as it was. -/
theorem createOrRetrieve_error_atomicity_witness :
    createOrRetrieve ⟨"Bad", none, none, some .null, none⟩
      ⟨[("Cfg:REST", ⟨5, ⟨"Cfg", some ⟨1⟩, none, none, none⟩, .REST⟩)], 7⟩ =
    (.error unrecognizedAdapterMsg,
     ⟨[("Cfg:REST", ⟨5, ⟨"Cfg", some ⟨1⟩, none, none, none⟩, .REST⟩)], 7⟩) :=
  createOrRetrieve_error_atomicity _ _ rfl

/-- C2: two createOrRetrieve calls with adapter instances of the same
runtime constructor name and the same detected protocol return the
same connector (the registry entry stored under
constructorName:protocol), even when the adapter field values
differ; the second call retrieves the entry and leaves the registry
unchanged.  Connector equality includes the allocation id, so it
models referential identity. -/
theorem createOrRetrieve_idempotent (a1 a2 : AdapterObject)
    (s s1 : RegistryState) (p : ClientProtocol) (c1 : Connector)
    (hd1 : detectProtocol a1 = some p) (hd2 : detectProtocol a2 = some p)
    (hname : a2.constructorName = a1.constructorName)
    (h1 : createOrRetrieve a1 s = (.ok c1, s1)) :
    createOrRetrieve a2 s1 = (.ok c1, s1) := by
  have hkey : registryKeyOf a2 p = registryKeyOf a1 p := by
    unfold registryKeyOf
    rw [hname]
  have hlook := createOrRetrieve_lookup a1 s p c1 s1 hd1 h1
  unfold createOrRetrieve
  rw [hd2]
  simp only [hkey, hlook]

/-- C2 witness: two REST adapters of constructor name Cfg with
different axios instances; the second call returns the connector
built from the first. -/
theorem createOrRetrieve_idempotent_witness :
    createOrRetrieve ⟨"Cfg", some ⟨1⟩, none, none, none⟩
      ⟨[("Cfg:REST", ⟨0, ⟨"Cfg", some ⟨0⟩, none, none, none⟩, .REST⟩)], 1⟩ =
    (.ok ⟨0, ⟨"Cfg", some ⟨0⟩, none, none, none⟩, .REST⟩,
     ⟨[("Cfg:REST", ⟨0, ⟨"Cfg", some ⟨0⟩, none, none, none⟩, .REST⟩)], 1⟩) :=
  createOrRetrieve_idempotent
    ⟨"Cfg", some ⟨0⟩, none, none, none⟩
    ⟨"Cfg", some ⟨1⟩, none, none, none⟩
    RegistryState.initial _ .REST _ rfl rfl rfl rfl

/-- C10: a connector constructed by a createOrRetrieve call on a fresh
key stores the adapter of that call; a later call hitting the same
(constructor name, protocol) key returns that stored connector — whose
adapterClient is still the adapter of the first call — and leaves the
registry state untouched, so the later adapter is never stored.  Every
operation (request, applyAuthenticationToken, getGraphQLClient) is a
function of the returned connector alone, hence operates on the
adapter of the first call; the field values of the later adapter have
no effect on the result or the state. -/
theorem connector_keeps_first_adapter (a1 a2 : AdapterObject)
    (s s1 : RegistryState) (p : ClientProtocol) (c1 : Connector)
    (hd1 : detectProtocol a1 = some p) (hd2 : detectProtocol a2 = some p)
    (hname : a2.constructorName = a1.constructorName)
    (hfresh : s.registry.lookup (registryKeyOf a1 p) = none)
    (h1 : createOrRetrieve a1 s = (.ok c1, s1)) :
    c1.adapterClient = a1 ∧ createOrRetrieve a2 s1 = (.ok c1, s1) := by
  have hkey : registryKeyOf a2 p = registryKeyOf a1 p := by
    unfold registryKeyOf
    rw [hname]
  have hlook := createOrRetrieve_lookup a1 s p c1 s1 hd1 h1
  constructor
  · have heq : createOrRetrieve a1 s =
        (.ok ⟨s.nextId, a1, p⟩,
         ⟨(registryKeyOf a1 p, ⟨s.nextId, a1, p⟩) :: s.registry,
          s.nextId + 1⟩) := by
      unfold createOrRetrieve
      rw [hd1]
      simp only [hfresh]
    rw [heq] at h1
    injection h1 with hx _
    injection hx with hc
    rw [← hc]
  · unfold createOrRetrieve
    rw [hd2]
    simp only [hkey, hlook]

/-- C10 witness: the connector created for the first adapter (axios
instance 0) is returned unchanged by a second call with a different
adapter instance (axios instance 9) of the same type and protocol. -/
theorem connector_keeps_first_adapter_witness :
    (⟨0, ⟨"Shared", some ⟨0⟩, none, none, none⟩, .REST⟩ :
        Connector).adapterClient = ⟨"Shared", some ⟨0⟩, none, none, none⟩
  ∧ createOrRetrieve ⟨"Shared", some ⟨9⟩, none, none, none⟩
      ⟨[("Shared:REST",
         ⟨0, ⟨"Shared", some ⟨0⟩, none, none, none⟩, .REST⟩)], 1⟩ =
    (.ok ⟨0, ⟨"Shared", some ⟨0⟩, none, none, none⟩, .REST⟩,
     ⟨[("Shared:REST",
        ⟨0, ⟨"Shared", some ⟨0⟩, none, none, none⟩, .REST⟩)], 1⟩) :=
  connector_keeps_first_adapter
    ⟨"Shared", some ⟨0⟩, none, none, none⟩
    ⟨"Shared", some ⟨9⟩, none, none, none⟩
    RegistryState.initial _ .REST _ rfl rfl rfl rfl rfl

/-- C3: when the transport call rejects with an error that is marked
isAxiosError and carries an attached response, executeHttpRequest
resolves to that attached response object unchanged: a non-2xx status
is handed back to the caller as data, not raised. -/
theorem rest_attached_response_returned (behavior : AxiosBehavior)
    (adapter : RESTAdapter) (cfg : HttpRequestConfig) (w : World)
    (e : JSError) (resp : AxiosResponse)
    (hcall : behavior cfg.core (overlaidDefaults adapter cfg w) = .reject e)
    (hax : e.isAxiosError = true) (hresp : e.response = some resp) :
    (executeHttpRequest behavior adapter cfg w).1 = .ok resp := by
  rw [executeHttpRequest_fst, hcall]
  simp [hax, hresp]

/-- C3 witness: a simulated 404 rejection with isAxiosError and an
attached response resolves to exactly that response. -/
theorem rest_attached_response_returned_witness :
    (executeHttpRequest
      (fun _ _ => .reject
        ⟨true,
         some ⟨.obj [("error", .str "not found")], 404, "Not Found", [],
           .obj []⟩,
         none, ""⟩)
      ⟨⟨0⟩⟩ ⟨"/x", .GET, none, none, none⟩ []).1 =
    .ok ⟨.obj [("error", .str "not found")], 404, "Not Found", [],
      .obj []⟩ :=
  rest_attached_response_returned _ ⟨⟨0⟩⟩ ⟨"/x", .GET, none, none, none⟩ []
    ⟨true,
     some ⟨.obj [("error", .str "not found")], 404, "Not Found", [],
       .obj []⟩,
     none, ""⟩
    ⟨.obj [("error", .str "not found")], 404, "Not Found", [], .obj []⟩
    rfl rfl rfl

/-- C4: around every executeHttpRequest call, (a) after the call
settles the default headers of every axios instance equal their
pre-call snapshot, whatever the transport did; (b) the transport is
consulted exactly at the per-call headers merged into the pre-call
defaults: two behaviours agreeing there give identical call results;
(c) a default header not overridden by the per-call headers keeps its
value in the merged mapping; (d) the value of a per-call header appears in
the merged mapping the transport observes. -/
theorem rest_header_overlay_and_restore (b1 b2 : AxiosBehavior)
    (adapter : RESTAdapter) (cfg : HttpRequestConfig) (w : World) :
    (∀ j, getDefaults (executeHttpRequest b1 adapter cfg w).2 j =
       getDefaults w j)
  ∧ (b1 cfg.core (overlaidDefaults adapter cfg w) =
       b2 cfg.core (overlaidDefaults adapter cfg w) →
     executeHttpRequest b1 adapter cfg w =
       executeHttpRequest b2 adapter cfg w)
  ∧ (∀ h k, cfg.headers = some h → h.lookup k = none →
       (overlaidDefaults adapter cfg w).lookup k =
         (getDefaults w adapter.axiosInstance.instId).lookup k)
  ∧ (∀ h k v, cfg.headers = some h → (h.map Prod.fst).Nodup →
       h.lookup k = some v →
       (overlaidDefaults adapter cfg w).lookup k = some v) := by
  refine ⟨fun j => executeHttpRequest_snd b1 adapter cfg w j, ?_, ?_, ?_⟩
  · intro hb
    have hsnd : (executeHttpRequest b1 adapter cfg w).2 =
        (executeHttpRequest b2 adapter cfg w).2 := rfl
    rw [Prod.ext_iff]
    refine ⟨?_, hsnd⟩
    rw [executeHttpRequest_fst, executeHttpRequest_fst, hb]
  · intro h k hh hk
    unfold overlaidDefaults
    rw [hh]
    exact lookup_objectAssign_none _ _ _ hk
  · intro h k v hh hnd hk
    unfold overlaidDefaults
    rw [hh]
    exact lookup_objectAssign_some _ _ _ _ hnd hk

/-- C4 witness: with defaults A=1 and per-call headers B=2, the merged
mapping observed by the transport has A=1 and B=2, the defaults equal
A=1 again after the call, and a second behaviour agreeing at the
merged headers produces the identical call result. -/
theorem rest_header_overlay_and_restore_witness :
    getDefaults
      ((executeHttpRequest (fun _ _ => .fulfill ⟨.null, 200, "OK", [], .obj []⟩)
        ⟨⟨0⟩⟩ ⟨"/x", .GET, none, none, some [("B", "2")]⟩
        [(0, [("A", "1")])]).2) 0 = [("A", "1")]
  ∧ executeHttpRequest (fun _ _ => .fulfill ⟨.null, 200, "OK", [], .obj []⟩)
      ⟨⟨0⟩⟩ ⟨"/x", .GET, none, none, some [("B", "2")]⟩ [(0, [("A", "1")])] =
    executeHttpRequest
      (fun _ hdr => if hdr.lookup "B" = some "2"
        then .fulfill ⟨.null, 200, "OK", [], .obj []⟩
        else .reject ⟨false, none, none, "boom"⟩)
      ⟨⟨0⟩⟩ ⟨"/x", .GET, none, none, some [("B", "2")]⟩ [(0, [("A", "1")])]
  ∧ (overlaidDefaults ⟨⟨0⟩⟩ ⟨"/x", .GET, none, none, some [("B", "2")]⟩
      [(0, [("A", "1")])]).lookup "A" = some "1"
  ∧ (overlaidDefaults ⟨⟨0⟩⟩ ⟨"/x", .GET, none, none, some [("B", "2")]⟩
      [(0, [("A", "1")])]).lookup "B" = some "2" :=
  ⟨(rest_header_overlay_and_restore
      (fun _ _ => .fulfill ⟨.null, 200, "OK", [], .obj []⟩)
      (fun _ _ => .fulfill ⟨.null, 200, "OK", [], .obj []⟩)
      ⟨⟨0⟩⟩ ⟨"/x", .GET, none, none, some [("B", "2")]⟩
      [(0, [("A", "1")])]).1 0,
   (rest_header_overlay_and_restore
      (fun _ _ => .fulfill ⟨.null, 200, "OK", [], .obj []⟩)
      (fun _ hdr => if hdr.lookup "B" = some "2"
        then .fulfill ⟨.null, 200, "OK", [], .obj []⟩
        else .reject ⟨false, none, none, "boom"⟩)
      ⟨⟨0⟩⟩ ⟨"/x", .GET, none, none, some [("B", "2")]⟩
      [(0, [("A", "1")])]).2.1 rfl,
   (rest_header_overlay_and_restore
      (fun _ _ => .fulfill ⟨.null, 200, "OK", [], .obj []⟩)
      (fun _ _ => .fulfill ⟨.null, 200, "OK", [], .obj []⟩)
      ⟨⟨0⟩⟩ ⟨"/x", .GET, none, none, some [("B", "2")]⟩
      [(0, [("A", "1")])]).2.2.1 [("B", "2")] "A" rfl rfl,
   (rest_header_overlay_and_restore
      (fun _ _ => .fulfill ⟨.null, 200, "OK", [], .obj []⟩)
      (fun _ _ => .fulfill ⟨.null, 200, "OK", [], .obj []⟩)
      ⟨⟨0⟩⟩ ⟨"/x", .GET, none, none, some [("B", "2")]⟩
      [(0, [("A", "1")])]).2.2.2 [("B", "2")] "B" "2" rfl (by simp) rfl⟩

/-- C5: applyAuthenticationToken on a REST connector sets the
authorization default header of the axios instance of the adapter to
exactly Bearer followed by the token; on a non-REST (GraphQL or
Generic) connector it fails with the capability-mismatch error and the
world is returned exactly as it was (no state is mutated; adapters
themselves are immutable values in the model). -/
theorem applyAuthenticationToken_spec (c : Connector) (token : String)
    (w : World) :
    (∀ inst, c.protocolType = .REST →
       c.adapterClient.axiosInstance = some inst →
       applyAuthenticationToken c token w =
         (.ok (), setDefaults w inst.instId
            (setHeader (getDefaults w inst.instId) "authorization"
              ("Bearer " ++ token)))
       ∧ (getDefaults (applyAuthenticationToken c token w).2
            inst.instId).lookup "authorization" =
           some ("Bearer " ++ token))
  ∧ (c.protocolType ≠ .REST →
       applyAuthenticationToken c token w = (.error authOnlyRestMsg, w)) := by
  constructor
  · intro inst hp hi
    have heq : applyAuthenticationToken c token w =
        (.ok (), setDefaults w inst.instId
          (setHeader (getDefaults w inst.instId) "authorization"
            ("Bearer " ++ token))) := by
      unfold applyAuthenticationToken
      rw [hp]
      simp [hi]
    refine ⟨heq, ?_⟩
    rw [heq, getDefaults_setDefaults_self, lookup_setHeader_self]
  · intro hp
    unfold applyAuthenticationToken
    simp [hp]

/-- C5 witness: token abc on a REST connector yields authorization
Bearer abc; on a GraphQL and on a Generic connector the call fails
with the capability-mismatch error and leaves the world unchanged. -/
theorem applyAuthenticationToken_spec_witness :
    (getDefaults
       (applyAuthenticationToken
         ⟨0, ⟨"Cfg", some ⟨0⟩, none, none, none⟩, .REST⟩ "abc"
         [(0, [])]).2 0).lookup "authorization" = some "Bearer abc"
  ∧ applyAuthenticationToken
      ⟨1, ⟨"G", none, some ⟨7⟩, none, none⟩, .GraphQL⟩ "abc" [(0, [])] =
      (.error authOnlyRestMsg, [(0, [])])
  ∧ applyAuthenticationToken
      ⟨2, ⟨"X", none, none, some .null, some (fun _ => .resolve .null)⟩,
       .Generic⟩ "abc" [(0, [])] =
      (.error authOnlyRestMsg, [(0, [])]) :=
  ⟨((applyAuthenticationToken_spec
      ⟨0, ⟨"Cfg", some ⟨0⟩, none, none, none⟩, .REST⟩ "abc"
      [(0, [])]).1 ⟨0⟩ rfl rfl).2,
   (applyAuthenticationToken_spec
      ⟨1, ⟨"G", none, some ⟨7⟩, none, none⟩, .GraphQL⟩ "abc"
      [(0, [])]).2 (by decide),
   (applyAuthenticationToken_spec
      ⟨2, ⟨"X", none, none, some .null, some (fun _ => .resolve .null)⟩,
       .Generic⟩ "abc" [(0, [])]).2 (by decide)⟩

/-- C6 counterexample: a REST failure carrying message Network error
and no response is wrapped as the Portuguese message of the code,
"Falha na requisição HTTP: Network error", and therefore not as the
English "HTTP request failed: Network error" the claim states. -/
theorem wrapped_message_language_counterexample :
    (executeHttpRequest
        (fun _ _ => .reject ⟨false, none, some "Network error", ""⟩)
        ⟨⟨0⟩⟩ ⟨"/x", .GET, none, none, none⟩ []).1 =
      .error "Falha na requisição HTTP: Network error"
  ∧ (executeHttpRequest
        (fun _ _ => .reject ⟨false, none, some "Network error", ""⟩)
        ⟨⟨0⟩⟩ ⟨"/x", .GET, none, none, none⟩ []).1 ≠
      .error "HTTP request failed: Network error" := by
  constructor
  · rfl
  · intro h
    have h' : ("Falha na requisição HTTP: Network error" : String) =
        "HTTP request failed: Network error" := Except.error.inj h
    exact absurd h' (by decide)

/-- C6 amended: every unstructured failure (no usable attached
response) is rejected with exactly one wrapped error whose message is
the protocol-specific prefix of the code — the Portuguese strings
"Falha na requisição HTTP: ", "Falha na operação GraphQL: ",
"Falha na operação genérica: " rather than the English prefixes the
claim quotes — followed by the message of the original error, falling back
to the string rendering of the whole error value when no message field
is present. -/
theorem wrapped_error_messages (behavior : AxiosBehavior)
    (aR : RESTAdapter) (cfgR : HttpRequestConfig) (w : World)
    (env : GqlEnv) (aG : GraphQLAdapter) (cfgG : GraphQLOperationConfig)
    (aX : GenericAdapter) (cfgX : JSValue) (e : JSError) :
    (behavior cfgR.core (overlaidDefaults aR cfgR w) = .reject e →
       e.isAxiosError = false ∨ e.response = none →
       (executeHttpRequest behavior aR cfgR w).1 =
         .error ("Falha na requisição HTTP: " ++ e.orString))
  ∧ (env.clientQuery aG.apolloClient (apolloArgsOf env cfgG) = .reject e →
       executeGraphQLOperation env aG cfgG =
         .error ("Falha na operação GraphQL: " ++ e.orString))
  ∧ (aX.executeRequest cfgX = .reject e →
       executeGenericOperation aX cfgX =
         .error ("Falha na operação genérica: " ++ e.orString))
  ∧ (e.message = none → e.orString = e.asString) := by
  refine ⟨?_, ?_, ?_, ?_⟩
  · intro hcall hun
    rw [executeHttpRequest_fst, hcall]
    rcases hun with hf | hr
    · simp [hf, httpFailureMsg]
    · cases hax : e.isAxiosError <;> simp [hax, hr, httpFailureMsg]
  · intro hcall
    unfold executeGraphQLOperation
    rw [hcall]
    simp [graphQLFailureMsg]
  · intro hcall
    unfold executeGenericOperation
    rw [hcall]
    simp [genericFailureMsg]
  · intro h
    unfold JSError.orString
    rw [h]

/-- C6 amended witness: the three wrapped messages at concrete
failures — REST with message Network error, GraphQL with message bad
query, Generic with no message field falling back to the stringified
error value. -/
theorem wrapped_error_messages_witness :
    (executeHttpRequest
        (fun _ _ => .reject ⟨false, none, some "Network error", ""⟩)
        ⟨⟨1⟩⟩ ⟨"/y", .POST, none, none, none⟩ []).1 =
      .error "Falha na requisição HTTP: Network error"
  ∧ executeGraphQLOperation
      ⟨fun t => ⟨t⟩, fun _ _ => .reject ⟨false, none, some "bad query", ""⟩⟩
      ⟨⟨0⟩⟩ ⟨.doc ⟨"q"⟩, none, none⟩ =
      .error "Falha na operação GraphQL: bad query"
  ∧ executeGenericOperation
      ⟨.null, fun _ => .reject ⟨false, none, none, "[object Object]"⟩⟩
      (.obj []) =
      .error "Falha na operação genérica: [object Object]" :=
  ⟨(wrapped_error_messages
      (fun _ _ => .reject ⟨false, none, some "Network error", ""⟩)
      ⟨⟨1⟩⟩ ⟨"/y", .POST, none, none, none⟩ []
      ⟨fun t => ⟨t⟩, fun _ _ => .reject ⟨false, none, some "bad query", ""⟩⟩
      ⟨⟨0⟩⟩ ⟨.doc ⟨"q"⟩, none, none⟩
      ⟨.null, fun _ => .reject ⟨false, none, none, "[object Object]"⟩⟩
      (.obj []) ⟨false, none, some "Network error", ""⟩).1 rfl
      (Or.inl rfl),
   (wrapped_error_messages
      (fun _ _ => .reject ⟨false, none, some "Network error", ""⟩)
      ⟨⟨1⟩⟩ ⟨"/y", .POST, none, none, none⟩ []
      ⟨fun t => ⟨t⟩, fun _ _ => .reject ⟨false, none, some "bad query", ""⟩⟩
      ⟨⟨0⟩⟩ ⟨.doc ⟨"q"⟩, none, none⟩
      ⟨.null, fun _ => .reject ⟨false, none, none, "[object Object]"⟩⟩
      (.obj []) ⟨false, none, some "bad query", ""⟩).2.1 rfl,
   (wrapped_error_messages
      (fun _ _ => .reject ⟨false, none, some "Network error", ""⟩)
      ⟨⟨1⟩⟩ ⟨"/y", .POST, none, none, none⟩ []
      ⟨fun t => ⟨t⟩, fun _ _ => .reject ⟨false, none, some "bad query", ""⟩⟩
      ⟨⟨0⟩⟩ ⟨.doc ⟨"q"⟩, none, none⟩
      ⟨.null, fun _ => .reject ⟨false, none, none, "[object Object]"⟩⟩
      (.obj []) ⟨false, none, none, "[object Object]"⟩).2.2.1 rfl⟩

/-- C7: a query passed as a raw string and as the document the gql
parser yields for it produce identical results of
executeGraphQLOperation for every client behaviour; and on success the
result is the envelope with the returned data, status 200, statusText
OK, empty headers, empty config, discarding all transport metadata. -/
theorem graphql_string_doc_equivalence (env : GqlEnv)
    (adapter : GraphQLAdapter) (s : String) (d : DocumentNode)
    (vars : Option JSValue) (hdrs : Option Headers)
    (hparse : env.gqlParse (gqlTemplate s) = d) :
    executeGraphQLOperation env adapter ⟨.str s, vars, hdrs⟩ =
      executeGraphQLOperation env adapter ⟨.doc d, vars, hdrs⟩
  ∧ (∀ dat,
       env.clientQuery adapter.apolloClient
         (apolloArgsOf env ⟨.doc d, vars, hdrs⟩) = .fulfill dat →
       executeGraphQLOperation env adapter ⟨.doc d, vars, hdrs⟩ =
         .ok ⟨dat, 200, "OK", [], .obj []⟩) := by
  have hop : apolloArgsOf env ⟨.str s, vars, hdrs⟩ =
      apolloArgsOf env ⟨.doc d, vars, hdrs⟩ := by
    simp only [apolloArgsOf, gqlOperationOf]
    rw [hparse]
  constructor
  · unfold executeGraphQLOperation
    rw [hop]
  · intro dat hq
    unfold executeGraphQLOperation
    rw [hq]

/-- C7 witness: with a parser mapping text to its document and a
client fulfilling with user data, the raw string query and its parsed
document give the same call result, equal to the wrapped envelope. -/
theorem graphql_string_doc_equivalence_witness :
    executeGraphQLOperation
      ⟨fun t => ⟨t⟩, fun _ _ => .fulfill (.obj [("user", .str "u")])⟩
      ⟨⟨3⟩⟩ ⟨.str "query Q", none, none⟩ =
    executeGraphQLOperation
      ⟨fun t => ⟨t⟩, fun _ _ => .fulfill (.obj [("user", .str "u")])⟩
      ⟨⟨3⟩⟩ ⟨.doc ⟨gqlTemplate "query Q"⟩, none, none⟩
  ∧ executeGraphQLOperation
      ⟨fun t => ⟨t⟩, fun _ _ => .fulfill (.obj [("user", .str "u")])⟩
      ⟨⟨3⟩⟩ ⟨.doc ⟨gqlTemplate "query Q"⟩, none, none⟩ =
    .ok ⟨.obj [("user", .str "u")], 200, "OK", [], .obj []⟩ :=
  ⟨(graphql_string_doc_equivalence
      ⟨fun t => ⟨t⟩, fun _ _ => .fulfill (.obj [("user", .str "u")])⟩
      ⟨⟨3⟩⟩ "query Q" ⟨gqlTemplate "query Q"⟩ none none rfl).1,
   (graphql_string_doc_equivalence
      ⟨fun t => ⟨t⟩, fun _ _ => .fulfill (.obj [("user", .str "u")])⟩
      ⟨⟨3⟩⟩ "query Q" ⟨gqlTemplate "query Q"⟩ none none rfl).2
     (.obj [("user", .str "u")]) rfl⟩

/-- C8: executeGenericOperation consults the caller-supplied
executeRequest exactly at the given config object — any executor
agreeing there yields the identical call result — and returns the
value the executor resolves to verbatim, with no envelope wrapping. -/
theorem generic_passthrough (adapter : GenericAdapter) (config : JSValue) :
    (∀ v, adapter.executeRequest config = .resolve v →
       executeGenericOperation adapter config = .ok v)
  ∧ (∀ a2 : GenericAdapter,
       a2.executeRequest config = adapter.executeRequest config →
       executeGenericOperation a2 config =
         executeGenericOperation adapter config) := by
  constructor
  · intro v hv
    unfold executeGenericOperation
    rw [hv]
  · intro a2 h2
    unfold executeGenericOperation
    rw [h2]

/-- C8 witness: an executor echoing its config resolves and the call
returns the echoed value unwrapped; a second adapter whose executor
agrees at this config gives the identical result. -/
theorem generic_passthrough_witness :
    executeGenericOperation
      ⟨.null, fun cfg => .resolve (.obj [("echo", cfg)])⟩
      (.obj [("k", .str "v")]) =
    .ok (.obj [("echo", .obj [("k", .str "v")])])
  ∧ executeGenericOperation
      ⟨.str "other", fun cfg => .resolve (.obj [("echo", cfg)])⟩
      (.obj [("k", .str "v")]) =
    executeGenericOperation
      ⟨.null, fun cfg => .resolve (.obj [("echo", cfg)])⟩
      (.obj [("k", .str "v")]) :=
  ⟨(generic_passthrough
      ⟨.null, fun cfg => .resolve (.obj [("echo", cfg)])⟩
      (.obj [("k", .str "v")])).1 (.obj [("echo", .obj [("k", .str "v")])])
      rfl,
   (generic_passthrough
      ⟨.null, fun cfg => .resolve (.obj [("echo", cfg)])⟩
      (.obj [("k", .str "v")])).2
     ⟨.str "other", fun cfg => .resolve (.obj [("echo", cfg)])⟩ rfl⟩

end Nexus
